import Mathlib

/-!
Verification development for the quart-session server-side session engine
(`quart_session/sessions.py`). The Python code is shallowly embedded:
pure computations become Lean functions, the asynchronous backend calls and
response mutations become explicit effect records, and external collaborators
(the itsdangerous signer, the tagged-JSON serializer of the host framework)
are modelled as abstract function bundles.
-/

namespace QuartSession

/-- Values stored in a session mapping (a small model of JSON-serializable
Python values; enough for the reserved keys and the spec examples). -/
inductive SVal where
  | str : String → SVal
  | natv : Nat → SVal
  | boolv : Bool → SVal
deriving DecidableEq, Repr

/-- A session data mapping: association list from string keys to values,
modelling the Python dict carried by `ServerSideSession`. -/
abbrev SData := List (String × SVal)

/-- Dict lookup `d.get(k)`: first binding of key `k`, if any. -/
def sGet (d : SData) (k : String) : Option SVal :=
  (d.find? (fun kv => kv.1 == k)).map (fun kv => kv.2)

/-- Dict update `d[k] = v`: replace the binding in place if the key exists,
else append it (Python dict insertion-order semantics). -/
def sSet (d : SData) (k : String) (v : SVal) : SData :=
  if (d.find? (fun kv => kv.1 == k)).isSome then
    d.map (fun kv => if kv.1 == k then (kv.1, v) else kv)
  else
    d ++ [(k, v)]

/-- Python truthiness of an optional string: `None` and the empty string are
falsy (`if not sid`, `if addr`). -/
def pyTruthy : Option String → Bool
  | none => false
  | some s => !(s == "")

/-- Model of `itsdangerous.Signer` as used by `_get_signer`: `sign` emits the
signed token, `unsign` recovers the raw payload or fails (`BadSignature`,
modelled as `none`). -/
structure Signer where
  sign : String → String
  unsign : String → Option String

/-- Model of the `TaggedJSONSerializer`: `dumps` encodes a mapping to a
payload string, `loads` decodes or fails (any exception, modelled as `none`). -/
structure Serializer where
  dumps : SData → String
  loads : String → Option SData

/-- Model of `time.total_seconds`-style helper `total_seconds(td)` of
`sessions.py`: `td.days * 60 * 60 * 24 + td.seconds`. -/
def totalSeconds (days secs : Nat) : Nat :=
  days * 60 * 60 * 24 + secs

/-- Relevant state of the Quart `app` object: cookie configuration, the
secret key, the permanent-session lifetime (a timedelta, kept as normalized
days/seconds), the current clock, and the signer constructor applied to a
secret key (modelling `Signer(app.secret_key, salt=..., key_derivation=...)`
of the external itsdangerous library). -/
structure App where
  sessionCookieName : String
  secretKey : Option String
  signerOf : String → Signer
  lifetimeDays : Nat
  lifetimeSecs : Nat
  now : Nat
  cookieDomain : Option String
  cookiePath : String
  cookieHttponly : Bool
  cookieSecure : Bool

/-- Relevant state of the incoming request: the session cookie value (if the
cookie is present), the X-Forwarded-For header (if present), and the direct
remote address. -/
structure Request where
  cookieSid : Option String
  xForwardedFor : Option String
  remoteAddr : String

/-- Configuration of a `SessionInterface` instance: the constructor fields
`key_prefix` (here `keyPref`), `use_signer`, `permanent`, plus the
`_config` options it reads, and the serializer. -/
structure Iface where
  keyPref : String
  useSigner : Bool
  permanent : Bool
  hijackProtection : Bool
  hijackReverseProxy : Bool
  explicit : Bool
  staticFile : Bool
  serializer : Serializer

/-- A `ServerSideSession` object: the data mapping, the session id `sid`,
the `permanent` flag, the framework-maintained `modified` flag, and the
`_dirty` flag set by `Session.dirty()`. -/
structure Session where
  data : SData
  sid : String
  permanent : Bool
  modified : Bool
  dirty : Bool
deriving DecidableEq, Repr

/-- Model of `ServerSideSession.__init__(initial, sid, permanent, addr)`:
the mapping starts from `initial`; a truthy `addr` is written to the
reserved `_addr` key (through the `addr` setter, which marks the mapping
modified); `_dirty` starts false. The `permanent` flag is kept as a
separate field of the model. -/
def mkServerSideSession (initial : SData) (sid : String) (permanent : Bool)
    (addr : Option String) : Session :=
  { data := if pyTruthy addr then sSet initial "_addr" (SVal.str (addr.getD "")) else initial
    sid := sid
    permanent := permanent
    modified := pyTruthy addr
    dirty := false }

/-- Model of `SessionInterface._get_signer(app)`: `None` when no secret key
is configured (Python truthiness: absent or empty), else the signer built
from the key. -/
def getSigner (app : App) : Option Signer :=
  match app.secretKey with
  | none => none
  | some k => if k == "" then none else some (app.signerOf k)

/-- The hijack-protection comparison address recomputed at the check site
(lines 143-146): the forwarded-for header only when the reverse-proxy flag
is set, otherwise the direct remote address. -/
def hijackAddr (ifc : Iface) (req : Request) : String :=
  if ifc.hijackReverseProxy then req.xForwardedFor.getD req.remoteAddr
  else req.remoteAddr

/-- The address computed at the top of `open_session` (line 108): the
forwarded-for header with fallback to the remote address, but only when
hijack protection is enabled. -/
def earlyAddr (ifc : Iface) (req : Request) : Option String :=
  if ifc.hijackProtection then some (req.xForwardedFor.getD req.remoteAddr) else none

/-- The fresh empty session every failure branch of `open_session` returns:
`session_class(sid=fresh, permanent=self.permanent, addr=addr)`. -/
def freshSession (ifc : Iface) (req : Request) (fresh : String) : Session :=
  mkServerSideSession [] fresh ifc.permanent (earlyAddr ifc req)

/-- The signature-verification phase of `open_session` (lines 115-126) on a
present cookie value: `Except.error false` models `return None` (no valid
signer obtainable), `Except.error true` models the `BadSignature` branch,
and `Except.ok sid` is the recovered raw identifier (the cookie value
itself when signing is disabled). -/
def unsignPhase (ifc : Iface) (app : App) (sidCookie : String) :
    Except Bool String :=
  if ifc.useSigner then
    match getSigner app with
    | none => Except.error false
    | some sg =>
      match sg.unsign sidCookie with
      | none => Except.error true
      | some s => Except.ok s
  else Except.ok sidCookie

/-- Observable outcome of `open_session`: the returned session (`none`
models `return None`), the backend keys looked up, and the backend keys
deleted, in order. -/
structure OpenOutcome where
  result : Option Session
  gets : List String
  dels : List String
deriving DecidableEq, Repr

/-- Model of `SessionInterface.open_session(app, request)`. The backend is a
snapshot `String → Option String` read by `_backend_get`; `fresh` is the
identifier `_generate_sid()` would mint in this call. -/
def openSession (ifc : Iface) (app : App) (req : Request)
    (backend : String → Option String) (fresh : String) : OpenOutcome :=
  let addr := earlyAddr ifc req
  let freshSess := mkServerSideSession [] fresh ifc.permanent addr
  if !(pyTruthy req.cookieSid) then
    ⟨some freshSess, [], []⟩
  else
    match unsignPhase ifc app (req.cookieSid.getD "") with
    | Except.error false => ⟨none, [], []⟩
    | Except.error true => ⟨some freshSess, [], []⟩
    | Except.ok sid =>
      let key := ifc.keyPref ++ sid
      match backend key with
      | none => ⟨some freshSess, [key], []⟩
      | some val =>
        match ifc.serializer.loads val with
        | none => ⟨some freshSess, [key], []⟩
        | some data =>
          if ifc.hijackProtection then
            let addr2 := hijackAddr ifc req
            if (sGet data "_addr").getD (SVal.str addr2) ≠ SVal.str addr2 then
              ⟨some freshSess, [key], [key]⟩
            else
              ⟨some (mkServerSideSession data sid false none), [key], []⟩
          else
            ⟨some (mkServerSideSession data sid false none), [key], []⟩

/-- Cookie write performed by `response.set_cookie` in `save_session`. -/
structure CookieWrite where
  name : String
  value : String
  expires : Option Nat
  httponly : Bool
  domain : Option String
  path : String
  secure : Bool
deriving DecidableEq, Repr

/-- Cookie deletion performed by `response.delete_cookie`. -/
structure CookieDrop where
  name : String
  domain : Option String
  path : String
deriving DecidableEq, Repr

/-- Observable effects of one `save_session` call: the backend write (key,
encoded value, TTL in seconds as passed by the Redis adapter through
`setex`), the backend deletion, and the cookie write or deletion. -/
structure SaveEffects where
  backendSet : Option (String × String × Nat)
  backendDel : Option String
  cookieSet : Option CookieWrite
  cookieDel : Option CookieDrop
deriving DecidableEq, Repr

/-- The empty effect record: `save_session` returned without touching the
backend or the response. -/
def noEffects : SaveEffects := ⟨none, none, none, none⟩

/-- Model of Quart `get_expiration_time`: for a permanent session, now plus
the configured lifetime; otherwise no expiry on the cookie. -/
def getExpirationTime (app : App) (s : Session) : Option Nat :=
  if s.permanent then some (app.now + totalSeconds app.lifetimeDays app.lifetimeSecs)
  else none

/-- Model of `SessionInterface.save_session(app, session, response)` with the
Redis adapter for `_backend_set` (which writes with TTL
`total_seconds(app.permanent_session_lifetime)`). `respIsFileBody` is
whether `response.response` is a `FileBody`. The result is `none` when the
call raises (signing requested with no obtainable signer), else the
recorded effects. -/
def saveSession (ifc : Iface) (app : App) (s : Session)
    (respIsFileBody : Bool) : Option SaveEffects :=
  if ifc.explicit && !s.dirty then
    some noEffects
  else if !ifc.staticFile && respIsFileBody then
    some noEffects
  else
    let key := ifc.keyPref ++ s.sid
    let domain := app.cookieDomain
    let path := app.cookiePath
    if s.data.isEmpty then
      if s.modified then
        some { backendSet := none
               backendDel := some key
               cookieSet := none
               cookieDel := some ⟨app.sessionCookieName, domain, path⟩ }
      else
        some noEffects
    else
      let httponly := app.cookieHttponly
      let secure := app.cookieSecure
      let expires := getExpirationTime app s
      let val := ifc.serializer.dumps s.data
      let cookieVal :=
        if ifc.useSigner then (getSigner app).map (fun sg => sg.sign s.sid)
        else some s.sid
      match cookieVal with
      | none => none
      | some cv =>
        some { backendSet := some (key, val, totalSeconds app.lifetimeDays app.lifetimeSecs)
               backendDel := none
               cookieSet := some ⟨app.sessionCookieName, cv, expires, httponly, domain, path, secure⟩
               cookieDel := none }

/-- Model of `MemcachedSessionInterface._get_memcache_timeout(timeout)`:
timeouts above 30 days (2592000 seconds) are converted to absolute Unix
timestamps by adding `int(time.time())` (`now`). -/
def getMemcacheTimeout (now timeout : Nat) : Nat :=
  if timeout > 2592000 then timeout + now else timeout

/-- Application-visible data of a mapping: everything except the reserved
bound-address key `_addr`. -/
def appData (d : SData) : SData :=
  d.filter (fun kv => kv.1 != "_addr")

/-! Concrete fixtures used by the witness theorems. -/

/-- Concrete signer used in witnesses: prepends a recognizable tag. -/
def sgTest : Signer :=
  { sign := fun s => "sig." ++ s
    unsign := fun s => if s.take 4 = "sig." then some (s.drop 4) else none }

/-- The spec example data mapping. -/
def dataTest : SData := [("user", SVal.str "alice"), ("count", SVal.natv 3)]

/-- Concrete serializer used in witnesses, consistent on `dataTest`. -/
def serTest : Serializer :=
  { dumps := fun d => if d = dataTest then "payload1" else "payload0"
    loads := fun s => if s = "payload1" then some dataTest else none }

/-- Concrete app fixture. -/
def appTest : App :=
  { sessionCookieName := "session"
    secretKey := some "k"
    signerOf := fun _ => sgTest
    lifetimeDays := 31
    lifetimeSecs := 0
    now := 1000
    cookieDomain := none
    cookiePath := "/"
    cookieHttponly := true
    cookieSecure := false }

/-- Concrete interface fixture: unsigned ids, no hijack protection, no
explicit mode. -/
def ifcTest : Iface :=
  { keyPref := "session:"
    useSigner := false
    permanent := true
    hijackProtection := false
    hijackReverseProxy := false
    explicit := false
    staticFile := true
    serializer := serTest }

/-- Concrete request fixture carrying the spec example identifier. -/
def reqTest : Request :=
  { cookieSid := some "abc-123"
    xForwardedFor := none
    remoteAddr := "10.0.0.1" }

/-- Concrete session fixture holding the spec example data. -/
def sessTest : Session :=
  { data := dataTest
    sid := "abc-123"
    permanent := false
    modified := true
    dirty := false }

/-! Helper lemmas shared by the claim proofs. -/

/-- A truthy optional string has a nonempty payload. -/
theorem pyTruthy_getD (o : Option String) (h : pyTruthy o = true) :
    o.getD "" ≠ "" := by
  cases o with
  | none => cases h
  | some s =>
    simp only [pyTruthy, Bool.not_eq_true', beq_eq_false_iff_ne, ne_eq] at h
    simpa using h

/-- An identifier recovered by the signature phase is either the cookie
value itself (signing disabled) or the output of a successful `unsign`. -/
theorem unsignPhase_ok_cases (ifc : Iface) (app : App) (c sid : String)
    (h : unsignPhase ifc app c = Except.ok sid) :
    sid = c ∨ ∃ sg, getSigner app = some sg ∧ sg.unsign c = some sid := by
  unfold unsignPhase at h
  split at h
  · split at h
    · simp at h
    · rename_i sg hsg
      split at h
      · simp at h
      · rename_i r hu
        simp only [Except.ok.injEq] at h
        subst h
        exact Or.inr ⟨sg, hsg, hu⟩
  · simp only [Except.ok.injEq] at h
    exact Or.inl h.symm

/-! Claim theorems. -/

/-- C8: for every requested TTL above 2592000 seconds (30 days) the
Memcached timeout translation returns the TTL plus the current Unix time —
an absolute expiry at least the requested duration in the future — and for
every TTL of at most 2592000 seconds it returns the TTL unchanged. -/
theorem memcache_timeout_translation (now t : Nat) :
    (2592000 < t →
      getMemcacheTimeout now t = t + now ∧
      now + t ≤ getMemcacheTimeout now t) ∧
    (t ≤ 2592000 → getMemcacheTimeout now t = t) := by
  constructor
  · intro h
    constructor
    · simp [getMemcacheTimeout, h]
    · simp [getMemcacheTimeout, h, Nat.add_comm]
  · intro h
    simp [getMemcacheTimeout, Nat.not_lt.mpr h]

/-- Witness for C8 at a 40-day TTL (3456000 s) with clock 1000, and at the
30-day boundary. -/
theorem memcache_timeout_translation_check :
    getMemcacheTimeout 1000 3456000 = 3456000 + 1000 ∧
    1000 + 3456000 ≤ getMemcacheTimeout 1000 3456000 ∧
    getMemcacheTimeout 1000 2592000 = 2592000 :=
  ⟨((memcache_timeout_translation 1000 3456000).1 (by decide)).1,
   ((memcache_timeout_translation 1000 3456000).1 (by decide)).2,
   (memcache_timeout_translation 1000 2592000).2 (by decide)⟩

/-- C6: with explicit-save mode configured and the dirty flag false,
`save_session` returns immediately with no backend write, no backend
deletion, and no cookie write or deletion, for every session and response
whatsoever. -/
theorem save_explicit_skip (ifc : Iface) (app : App) (s : Session)
    (fb : Bool) (hex : ifc.explicit = true) (hd : s.dirty = false) :
    saveSession ifc app s fb = some noEffects := by
  simp [saveSession, hex, hd]

/-- Witness for C6: a mutated, modified session under explicit mode with
the dirty flag unset produces the empty effect record. -/
theorem save_explicit_skip_check :
    saveSession { ifcTest with explicit := true } appTest sessTest false =
      some noEffects :=
  save_explicit_skip { ifcTest with explicit := true } appTest sessTest false
    rfl rfl

/-- C7: with signing enabled and no secret key configured (absent or empty,
per Python truthiness), `open_session` on a present cookie returns the
error outcome `None` at once — no backend access — and in particular does
not return a fresh empty session as the bad-signature path does. -/
theorem open_missing_secret_key (ifc : Iface) (app : App) (req : Request)
    (backend : String → Option String) (fresh : String)
    (hc : pyTruthy req.cookieSid = true)
    (hs : ifc.useSigner = true)
    (hk : app.secretKey = none ∨ app.secretKey = some "") :
    openSession ifc app req backend fresh = ⟨none, [], []⟩ ∧
    (openSession ifc app req backend fresh).result ≠
      some (freshSession ifc req fresh) := by
  have hsig : getSigner app = none := by
    rcases hk with h | h <;> simp [getSigner, h]
  have hout : openSession ifc app req backend fresh = ⟨none, [], []⟩ := by
    simp [openSession, hc, unsignPhase, hs, hsig]
  exact ⟨hout, by rw [hout]; simp⟩

/-- Witness for C7: signing enabled, secret key absent, cookie present. -/
theorem open_missing_secret_key_check :
    openSession { ifcTest with useSigner := true }
        { appTest with secretKey := none } reqTest (fun _ => none) "f-1" =
      ⟨none, [], []⟩ :=
  (open_missing_secret_key { ifcTest with useSigner := true }
    { appTest with secretKey := none } reqTest (fun _ => none) "f-1"
    rfl rfl (Or.inl rfl)).1

/-- C4: a session whose data mapping is empty at save time is never written
to the backend and never gets a cookie write; when the early explicit-mode
and static-file returns do not trigger, a modified empty session causes a
backend deletion and a cookie deletion carrying the configured domain and
path, and an unmodified empty session causes no effect at all. -/
theorem save_empty_session (ifc : Iface) (app : App) (s : Session) (fb : Bool)
    (hempty : s.data = []) :
    (∃ eff, saveSession ifc app s fb = some eff ∧
        eff.backendSet = none ∧ eff.cookieSet = none) ∧
    ((ifc.explicit && !s.dirty) = false → (!ifc.staticFile && fb) = false →
      (s.modified = true →
        saveSession ifc app s fb = some
          ⟨none, some (ifc.keyPref ++ s.sid), none,
            some ⟨app.sessionCookieName, app.cookieDomain, app.cookiePath⟩⟩) ∧
      (s.modified = false → saveSession ifc app s fb = some noEffects)) := by
  have hemp : s.data.isEmpty = true := by rw [hempty]; rfl
  constructor
  · cases h1 : (ifc.explicit && !s.dirty) with
    | true => exact ⟨noEffects, by simp [saveSession, h1], rfl, rfl⟩
    | false =>
      cases h2 : (!ifc.staticFile && fb) with
      | true => exact ⟨noEffects, by simp [saveSession, h1, h2], rfl, rfl⟩
      | false =>
        cases hm : s.modified with
        | true =>
          exact ⟨⟨none, some (ifc.keyPref ++ s.sid), none,
              some ⟨app.sessionCookieName, app.cookieDomain, app.cookiePath⟩⟩,
            by simp [saveSession, h1, h2, hemp, hm], rfl, rfl⟩
        | false =>
          exact ⟨noEffects, by simp [saveSession, h1, h2, hemp, hm], rfl, rfl⟩
  · intro h1 h2
    constructor
    · intro hm
      simp [saveSession, h1, h2, hemp, hm]
    · intro hm
      simp [saveSession, h1, h2, hemp, hm]

/-- Witness for C4: an empty modified session is deleted from the backend
and its cookie cleared; the effects never include a write. -/
theorem save_empty_session_check :
    (∃ eff, saveSession ifcTest appTest { sessTest with data := [] } false =
        some eff ∧ eff.backendSet = none ∧ eff.cookieSet = none) ∧
    saveSession ifcTest appTest { sessTest with data := [] } false = some
      ⟨none, some ("session:" ++ "abc-123"), none,
        some ⟨"session", none, "/"⟩⟩ := by
  have h := save_empty_session ifcTest appTest { sessTest with data := [] }
    false rfl
  exact ⟨h.1, (h.2 rfl rfl).1 rfl⟩

/-- C5: a non-empty session passing the early checks is written to the
backend under `key_prefix + sid` with the serializer-encoded data and a TTL
of the configured permanent-session lifetime in whole seconds (for every
session, hence regardless of its permanent flag), and the cookie value is
the raw identifier when signing is disabled and the signed identifier when
signing is enabled. -/
theorem save_nonempty_session (ifc : Iface) (app : App) (s : Session)
    (fb : Bool)
    (h1 : (ifc.explicit && !s.dirty) = false)
    (h2 : (!ifc.staticFile && fb) = false)
    (h3 : s.data.isEmpty = false) :
    (ifc.useSigner = false →
      saveSession ifc app s fb = some
        ⟨some (ifc.keyPref ++ s.sid, ifc.serializer.dumps s.data,
            totalSeconds app.lifetimeDays app.lifetimeSecs),
          none,
          some ⟨app.sessionCookieName, s.sid, getExpirationTime app s,
            app.cookieHttponly, app.cookieDomain, app.cookiePath,
            app.cookieSecure⟩,
          none⟩) ∧
    (∀ sg, ifc.useSigner = true → getSigner app = some sg →
      saveSession ifc app s fb = some
        ⟨some (ifc.keyPref ++ s.sid, ifc.serializer.dumps s.data,
            totalSeconds app.lifetimeDays app.lifetimeSecs),
          none,
          some ⟨app.sessionCookieName, sg.sign s.sid, getExpirationTime app s,
            app.cookieHttponly, app.cookieDomain, app.cookiePath,
            app.cookieSecure⟩,
          none⟩) := by
  constructor
  · intro hu
    simp [saveSession, h1, h2, h3, hu]
  · intro sg hu hsg
    simp [saveSession, h1, h2, h3, hu, hsg]

/-- Witness for C5: the spec example session is stored under
`session:abc-123` with TTL `totalSeconds 31 0`; unsigned and signed cookie
values are the raw and tagged identifiers respectively. -/
theorem save_nonempty_session_check :
    saveSession ifcTest appTest sessTest false = some
      ⟨some ("session:" ++ "abc-123", serTest.dumps dataTest,
          totalSeconds 31 0),
        none,
        some ⟨"session", "abc-123", none, true, none, "/", false⟩,
        none⟩ ∧
    saveSession { ifcTest with useSigner := true } appTest sessTest false =
      some
      ⟨some ("session:" ++ "abc-123", serTest.dumps dataTest,
          totalSeconds 31 0),
        none,
        some ⟨"session", sgTest.sign "abc-123", none, true, none, "/", false⟩,
        none⟩ := by
  constructor
  · exact (save_nonempty_session ifcTest appTest sessTest false
      rfl rfl rfl).1 rfl
  · exact (save_nonempty_session { ifcTest with useSigner := true } appTest
      sessTest false rfl rfl rfl).2 sgTest rfl rfl

/-- C1: every failing open request — missing cookie, bad signature, absent
backend key, undecodable payload, mismatched bound address — yields the
same fresh session (newly minted identifier, no application data), with no
error surfaced; the bad-signature branch performs no backend lookup; the
fresh session carries the minted identifier, which differs from any
rejected identifier the mint avoided. -/
theorem open_failure_uniform (ifc : Iface) (app : App) (req : Request)
    (backend : String → Option String) (fresh : String) :
    (pyTruthy req.cookieSid = false →
      openSession ifc app req backend fresh =
        ⟨some (freshSession ifc req fresh), [], []⟩) ∧
    (pyTruthy req.cookieSid = true →
      unsignPhase ifc app (req.cookieSid.getD "") = Except.error true →
      openSession ifc app req backend fresh =
        ⟨some (freshSession ifc req fresh), [], []⟩) ∧
    (∀ sid, pyTruthy req.cookieSid = true →
      unsignPhase ifc app (req.cookieSid.getD "") = Except.ok sid →
      backend (ifc.keyPref ++ sid) = none →
      openSession ifc app req backend fresh =
        ⟨some (freshSession ifc req fresh), [ifc.keyPref ++ sid], []⟩) ∧
    (∀ sid val, pyTruthy req.cookieSid = true →
      unsignPhase ifc app (req.cookieSid.getD "") = Except.ok sid →
      backend (ifc.keyPref ++ sid) = some val →
      ifc.serializer.loads val = none →
      openSession ifc app req backend fresh =
        ⟨some (freshSession ifc req fresh), [ifc.keyPref ++ sid], []⟩) ∧
    (∀ sid val data, pyTruthy req.cookieSid = true →
      unsignPhase ifc app (req.cookieSid.getD "") = Except.ok sid →
      backend (ifc.keyPref ++ sid) = some val →
      ifc.serializer.loads val = some data →
      ifc.hijackProtection = true →
      (sGet data "_addr").getD (SVal.str (hijackAddr ifc req)) ≠
        SVal.str (hijackAddr ifc req) →
      openSession ifc app req backend fresh =
        ⟨some (freshSession ifc req fresh), [ifc.keyPref ++ sid],
          [ifc.keyPref ++ sid]⟩) ∧
    (freshSession ifc req fresh).sid = fresh ∧
    appData (freshSession ifc req fresh).data = [] ∧
    (∀ rejected, fresh ≠ rejected →
      (freshSession ifc req fresh).sid ≠ rejected) := by
  refine ⟨?_, ?_, ?_, ?_, ?_, ?_, ?_, ?_⟩
  · intro hc
    simp [openSession, hc, freshSession]
  · intro hc hu
    simp [openSession, hc, hu, freshSession]
  · intro sid hc hu hb
    simp [openSession, hc, hu, hb, freshSession]
  · intro sid val hc hu hb hl
    simp [openSession, hc, hu, hb, hl, freshSession]
  · intro sid val data hc hu hb hl hp hmis
    simp [openSession, hc, hu, hb, hl, hp, hmis, freshSession]
  · simp [freshSession, mkServerSideSession]
  · cases h : pyTruthy (earlyAddr ifc req) <;>
      simp [freshSession, mkServerSideSession, h, appData, sSet, sGet]
  · intro rejected hne
    simpa [freshSession, mkServerSideSession] using hne

/-- Witness for C1: the missing-cookie, bad-signature, backend-miss, and
decode-failure branches at concrete inputs, each producing the fresh
session for the minted identifier `f-1`, with no lookup on the
bad-signature branch. -/
theorem open_failure_uniform_check :
    openSession ifcTest appTest { reqTest with cookieSid := none }
        (fun _ => none) "f-1" =
      ⟨some (freshSession ifcTest { reqTest with cookieSid := none } "f-1"),
        [], []⟩ ∧
    openSession { ifcTest with useSigner := true } appTest
        { reqTest with cookieSid := some "forged" } (fun _ => none) "f-1" =
      ⟨some (freshSession { ifcTest with useSigner := true }
        { reqTest with cookieSid := some "forged" } "f-1"), [], []⟩ ∧
    openSession ifcTest appTest reqTest (fun _ => none) "f-1" =
      ⟨some (freshSession ifcTest reqTest "f-1"),
        ["session:" ++ "abc-123"], []⟩ ∧
    openSession ifcTest appTest reqTest
        (fun k => if k = "session:abc-123" then some "garbage" else none)
        "f-1" =
      ⟨some (freshSession ifcTest reqTest "f-1"),
        ["session:" ++ "abc-123"], []⟩ := by
  refine ⟨?_, ?_, ?_, ?_⟩
  · exact (open_failure_uniform ifcTest appTest
      { reqTest with cookieSid := none } (fun _ => none) "f-1").1 rfl
  · exact (open_failure_uniform { ifcTest with useSigner := true } appTest
      { reqTest with cookieSid := some "forged" } (fun _ => none)
      "f-1").2.1 rfl rfl
  · exact (open_failure_uniform ifcTest appTest reqTest (fun _ => none)
      "f-1").2.2.1 "abc-123" rfl rfl rfl
  · exact (open_failure_uniform ifcTest appTest reqTest
      (fun k => if k = "session:abc-123" then some "garbage" else none)
      "f-1").2.2.2.1 "abc-123" "garbage" rfl rfl (by decide) (by decide)

/-- C3: with hijack protection enabled, the comparison address at the check
site is the forwarded-for header only when the reverse-proxy flag is also
set (otherwise the direct remote address); a decoded payload with no stored
address passes trivially and rehydration proceeds; on mismatch the backend
entry of the old identifier is deleted and a fresh empty session with a
newly minted identifier is returned. -/
theorem open_hijack_check (ifc : Iface) (app : App) (req : Request)
    (backend : String → Option String) (fresh : String)
    (sid val : String) (data : SData)
    (hc : pyTruthy req.cookieSid = true)
    (hu : unsignPhase ifc app (req.cookieSid.getD "") = Except.ok sid)
    (hb : backend (ifc.keyPref ++ sid) = some val)
    (hl : ifc.serializer.loads val = some data)
    (hp : ifc.hijackProtection = true) :
    hijackAddr ifc req = (if ifc.hijackReverseProxy then
      req.xForwardedFor.getD req.remoteAddr else req.remoteAddr) ∧
    (sGet data "_addr" = none →
      openSession ifc app req backend fresh =
        ⟨some (mkServerSideSession data sid false none),
          [ifc.keyPref ++ sid], []⟩) ∧
    ((sGet data "_addr").getD (SVal.str (hijackAddr ifc req)) ≠
        SVal.str (hijackAddr ifc req) →
      openSession ifc app req backend fresh =
        ⟨some (freshSession ifc req fresh), [ifc.keyPref ++ sid],
          [ifc.keyPref ++ sid]⟩ ∧
      appData (freshSession ifc req fresh).data = [] ∧
      (freshSession ifc req fresh).sid = fresh) := by
  refine ⟨rfl, ?_, ?_⟩
  · intro hnone
    simp [openSession, hc, hu, hb, hl, hp, hnone]
  · intro hmis
    refine ⟨by simp [openSession, hc, hu, hb, hl, hp, hmis, freshSession],
      ?_, by simp [freshSession, mkServerSideSession]⟩
    cases h : pyTruthy (earlyAddr ifc req) <;>
      simp [freshSession, mkServerSideSession, h, appData, sSet, sGet]

/-- Serializer fixture that also decodes a payload bound to another
address, for the hijack witnesses. -/
def serTest2 : Serializer :=
  { dumps := fun d => if d = dataTest then "payload1" else "payload0"
    loads := fun s =>
      if s = "payload2" then some [("_addr", SVal.str "10.0.0.9")]
      else if s = "payload1" then some dataTest else none }

/-- Interface fixture with hijack protection enabled. -/
def ifcHijack : Iface :=
  { ifcTest with hijackProtection := true, serializer := serTest2 }

/-- Witness for C3: a payload bound to `10.0.0.9` presented from
`10.0.0.1` is rejected — the old backend entry is deleted and a fresh
session `f-1` is issued; a payload with no bound address rehydrates. -/
theorem open_hijack_check_witness :
    (openSession ifcHijack appTest reqTest
        (fun k => if k = "session:abc-123" then some "payload2" else none)
        "f-1" =
      ⟨some (freshSession ifcHijack reqTest "f-1"),
        ["session:" ++ "abc-123"], ["session:" ++ "abc-123"]⟩ ∧
      appData (freshSession ifcHijack reqTest "f-1").data = [] ∧
      (freshSession ifcHijack reqTest "f-1").sid = "f-1") ∧
    openSession ifcHijack appTest reqTest
        (fun k => if k = "session:abc-123" then some "payload1" else none)
        "f-1" =
      ⟨some (mkServerSideSession dataTest "abc-123" false none),
        ["session:" ++ "abc-123"], []⟩ := by
  constructor
  · exact (open_hijack_check ifcHijack appTest reqTest
      (fun k => if k = "session:abc-123" then some "payload2" else none)
      "f-1" "abc-123" "payload2" [("_addr", SVal.str "10.0.0.9")]
      rfl rfl (by decide) (by decide) rfl).2.2 (by decide)
  · exact (open_hijack_check ifcHijack appTest reqTest
      (fun k => if k = "session:abc-123" then some "payload1" else none)
      "f-1" "abc-123" "payload1" dataTest
      rfl rfl (by decide) (by decide) rfl).2.1 (by decide)

/-- C10: on the successful rehydration path the returned session is built
from only the decoded data and the raw identifier (`session_class(data,
sid)`): its data is exactly the decoded mapping, its permanent flag is the
class default `false` rather than the interface default, and no address is
written into it — whereas the fresh-session branches receive the interface
default permanent flag. -/
theorem open_success_construction (ifc : Iface) (app : App) (req : Request)
    (backend : String → Option String) (fresh : String)
    (sid val : String) (data : SData)
    (hc : pyTruthy req.cookieSid = true)
    (hu : unsignPhase ifc app (req.cookieSid.getD "") = Except.ok sid)
    (hb : backend (ifc.keyPref ++ sid) = some val)
    (hl : ifc.serializer.loads val = some data)
    (hh : ifc.hijackProtection = true →
      (sGet data "_addr").getD (SVal.str (hijackAddr ifc req)) =
        SVal.str (hijackAddr ifc req)) :
    openSession ifc app req backend fresh =
      ⟨some (mkServerSideSession data sid false none),
        [ifc.keyPref ++ sid], []⟩ ∧
    (mkServerSideSession data sid false none).data = data ∧
    (mkServerSideSession data sid false none).permanent = false ∧
    (mkServerSideSession data sid false none).modified = false ∧
    (freshSession ifc req fresh).permanent = ifc.permanent := by
  refine ⟨?_, by simp [mkServerSideSession, pyTruthy], rfl, rfl, rfl⟩
  cases hp : ifc.hijackProtection with
  | true =>
    have heq := hh hp
    simp [openSession, hc, hu, hb, hl, hp, heq]
  | false =>
    simp [openSession, hc, hu, hb, hl, hp]

/-- Witness for C10: rehydrating the spec example under a permanent-default
interface yields a session with exactly the saved data, the raw identifier,
and a false permanent flag. -/
theorem open_success_construction_check :
    openSession ifcTest appTest reqTest
        (fun k => if k = "session:abc-123" then some "payload1" else none)
        "f-1" =
      ⟨some (mkServerSideSession dataTest "abc-123" false none),
        ["session:" ++ "abc-123"], []⟩ ∧
    (mkServerSideSession dataTest "abc-123" false none).data = dataTest ∧
    (mkServerSideSession dataTest "abc-123" false none).permanent = false ∧
    (freshSession ifcTest reqTest "f-1").permanent = true := by
  have h := open_success_construction ifcTest appTest reqTest
    (fun k => if k = "session:abc-123" then some "payload1" else none)
    "f-1" "abc-123" "payload1" dataTest rfl rfl (by decide) (by decide)
    (fun hp => absurd hp (by decide))
  exact ⟨h.1, h.2.1, h.2.2.1, h.2.2.2.2⟩

/-- A backend write recorded by `save_session` always targets the key
`key_prefix + sid` and carries the serializer encoding of the data. -/
theorem saveSession_set_inv (ifc : Iface) (app : App) (s : Session)
    (fb : Bool) (eff : SaveEffects) (key v : String) (ttl : Nat)
    (hsave : saveSession ifc app s fb = some eff)
    (hset : eff.backendSet = some (key, v, ttl)) :
    key = ifc.keyPref ++ s.sid ∧ v = ifc.serializer.dumps s.data := by
  cases h1 : (ifc.explicit && !s.dirty) with
  | true =>
    simp [saveSession, h1] at hsave
    rw [← hsave] at hset
    simp [noEffects] at hset
  | false =>
    cases h2 : (!ifc.staticFile && fb) with
    | true =>
      simp [saveSession, h1, h2] at hsave
      rw [← hsave] at hset
      simp [noEffects] at hset
    | false =>
      cases h3 : s.data.isEmpty with
      | true =>
        cases hm : s.modified with
        | true =>
          simp [saveSession, h1, h2, h3, hm] at hsave
          rw [← hsave] at hset
          simp at hset
        | false =>
          simp [saveSession, h1, h2, h3, hm] at hsave
          rw [← hsave] at hset
          simp [noEffects] at hset
      | false =>
        cases hcv : (if ifc.useSigner then
            (getSigner app).map (fun sg => sg.sign s.sid)
          else some s.sid) with
        | none => simp [saveSession, h1, h2, h3, hcv] at hsave
        | some cv =>
          simp [saveSession, h1, h2, h3, hcv] at hsave
          rw [← hsave] at hset
          simp at hset
          exact ⟨hset.1.symm, hset.2.1.symm⟩

/-- C2: a mapping stored by `save_session` is recovered exactly by
`open_session` when the identifier is presented again (unsigned or signed),
the backend still holds the written value, the serializer decodes its own
encoding back to the same mapping, and the hijack check passes. -/
theorem save_open_roundtrip (ifc : Iface) (app : App) (sess : Session)
    (fb : Bool) (req : Request) (fresh : String) (eff : SaveEffects)
    (key v : String) (ttl : Nat)
    (hsave : saveSession ifc app sess fb = some eff)
    (hset : eff.backendSet = some (key, v, ttl))
    (hrt : ifc.serializer.loads v = some sess.data)
    (hc : pyTruthy req.cookieSid = true)
    (hu : unsignPhase ifc app (req.cookieSid.getD "") = Except.ok sess.sid)
    (hh : ifc.hijackProtection = true →
      (sGet sess.data "_addr").getD (SVal.str (hijackAddr ifc req)) =
        SVal.str (hijackAddr ifc req)) :
    ∃ s, (openSession ifc app req
        (fun k => if k = key then some v else none) fresh).result =
      some s ∧ s.data = sess.data ∧ s.sid = sess.sid := by
  obtain ⟨hkey, hv⟩ :=
    saveSession_set_inv ifc app sess fb eff key v ttl hsave hset
  refine ⟨mkServerSideSession sess.data sess.sid false none, ?_,
    by simp [mkServerSideSession, pyTruthy], rfl⟩
  cases hp : ifc.hijackProtection with
  | true =>
    have heq := hh hp
    simp [openSession, hc, hu, hkey, hrt, hp, heq]
  | false =>
    simp [openSession, hc, hu, hkey, hrt, hp]

/-- Concrete effect record produced by saving the spec example session. -/
def effTest : SaveEffects :=
  ⟨some ("session:abc-123", "payload1", 2678400), none,
    some ⟨"session", "abc-123", none, true, none, "/", false⟩, none⟩

/-- Witness for C2: `{user: alice, count: 3}` saved under `abc-123` with
key head `session:` round-trips through the backend byte-for-byte. -/
theorem save_open_roundtrip_check :
    ∃ s, (openSession ifcTest appTest reqTest
        (fun k => if k = "session:abc-123" then some "payload1" else none)
        "f-1").result =
      some s ∧ s.data = sessTest.data ∧ s.sid = sessTest.sid :=
  save_open_roundtrip ifcTest appTest sessTest false reqTest "f-1" effTest
    "session:abc-123" "payload1" 2678400 (by decide) rfl (by decide)
    rfl rfl (fun hp => absurd hp (by decide))

/-- Every `open_session` outcome is the configuration-error `None`, the
fresh session, or a rehydrated session whose identifier came out of the
signature phase with a truthy cookie present. -/
theorem openSession_result_shape (ifc : Iface) (app : App) (req : Request)
    (backend : String → Option String) (fresh : String) :
    (openSession ifc app req backend fresh).result = none ∨
    (openSession ifc app req backend fresh).result =
      some (freshSession ifc req fresh) ∨
    ∃ sid data,
      pyTruthy req.cookieSid = true ∧
      unsignPhase ifc app (req.cookieSid.getD "") = Except.ok sid ∧
      (openSession ifc app req backend fresh).result =
        some (mkServerSideSession data sid false none) := by
  cases hc : pyTruthy req.cookieSid with
  | false =>
    right; left
    simp [openSession, hc, freshSession]
  | true =>
    cases hu : unsignPhase ifc app (req.cookieSid.getD "") with
    | error b =>
      cases b with
      | false => left; simp [openSession, hc, hu]
      | true => right; left; simp [openSession, hc, hu, freshSession]
    | ok sid =>
      cases hb : backend (ifc.keyPref ++ sid) with
      | none => right; left; simp [openSession, hc, hu, hb, freshSession]
      | some val =>
        cases hl : ifc.serializer.loads val with
        | none =>
          right; left
          simp [openSession, hc, hu, hb, hl, freshSession]
        | some data =>
          cases hp : ifc.hijackProtection with
          | false =>
            right; right
            exact ⟨sid, data, rfl, rfl,
              by simp [openSession, hc, hu, hb, hl, hp]⟩
          | true =>
            by_cases hmq : (sGet data "_addr").getD
                (SVal.str (hijackAddr ifc req)) =
                SVal.str (hijackAddr ifc req)
            · right; right
              exact ⟨sid, data, rfl, rfl,
                by simp [openSession, hc, hu, hb, hl, hp, hmq]⟩
            · right; left
              simp [openSession, hc, hu, hb, hl, hp, hmq, freshSession]

/-- C9: every session object `open_session` returns carries a nonempty
identifier, granted that the minted identifier is nonempty (a UUID string
always is) and that the signer only unsigns to identifiers it once signed,
which are nonempty. -/
theorem open_sid_nonempty (ifc : Iface) (app : App) (req : Request)
    (backend : String → Option String) (fresh : String)
    (hfresh : fresh ≠ "")
    (hsg : ∀ sg c r, getSigner app = some sg → sg.unsign c = some r →
      r ≠ "") :
    ∀ s, (openSession ifc app req backend fresh).result = some s →
      s.sid ≠ "" := by
  intro s hs
  rcases openSession_result_shape ifc app req backend fresh with
    h | h | ⟨sid, data, hc, hu, h⟩
  · rw [h] at hs
    cases hs
  · rw [h] at hs
    obtain rfl : freshSession ifc req fresh = s := Option.some.inj hs
    simpa [freshSession, mkServerSideSession] using hfresh
  · rw [h] at hs
    obtain rfl : mkServerSideSession data sid false none = s :=
      Option.some.inj hs
    have hsid : sid ≠ "" := by
      rcases unsignPhase_ok_cases ifc app _ sid hu with heq | ⟨sg, hsgr, hun⟩
      · rw [heq]
        exact pyTruthy_getD _ hc
      · exact hsg sg _ sid hsgr hun
    simpa [mkServerSideSession] using hsid

/-- Witness for C9: a fresh session minted on a backend miss carries the
nonempty identifier `f-1`. -/
theorem open_sid_nonempty_check :
    (freshSession ifcTest reqTest "f-1").sid ≠ "" :=
  open_sid_nonempty ifcTest { appTest with secretKey := none } reqTest
    (fun _ => none) "f-1" (by decide)
    (fun sg c r h _ => absurd h (by simp [getSigner]))
    (freshSession ifcTest reqTest "f-1") rfl

end QuartSession
